import Mathlib

/-!
Shallow embedding of the docker-compose translation module
(`src/docker-compose/dagger/src/main.py`) and proofs about it.

The module translates a rendered Docker Compose document into container
build calls against an external pipeline engine.  External capabilities
(the Container API, the cache-volume allocator, the logger) are opaque in
the source; here a `Container` is the trace of API calls made on it, and
the interpretation of that trace (effective entrypoint, effective command)
is modelled from the spec where the source cannot decide it.

Python semantics captured explicitly:
* a `dict` has object identity: `PyDict` carries an allocation id `oid`,
  and the `Project` state carries a fresh-id counter `nextOid`;
* `if not d:` is truthiness: `None` and the empty dict are both falsy;
* an exception propagates but mutations made to `self` before the raise
  survive, so every stateful method returns the (possibly mutated) state
  together with an `Except` result;
* `d[k]` raises `KeyError(k)` on a missing key, and `k in None` raises
  `TypeError`.
-/

/-- A directory handle resolved by the engine, identified by its path. -/
structure Directory where
  path : String
deriving DecidableEq, Repr

/-- The engine call `Directory.directory(path=p)`: the sub-directory handle at `p`. -/
def Directory.directory (d : Directory) (p : String) : Directory :=
  ⟨d.path ++ "/" ++ p⟩

/-- A file handle resolved by the engine, identified by its path. -/
structure File where
  path : String
deriving DecidableEq, Repr

/-- The engine call `Directory.file(path=p)`: the file handle at `p`. -/
def Directory.file (d : Directory) (p : String) : File :=
  ⟨d.path ++ "/" ++ p⟩

/-- Modelled from the spec: the cache-volume allocator
`volume(name) -> VolumeHandle` is idempotent per name, so a handle is
identified by its name. -/
structure CacheVolume where
  volName : String
deriving DecidableEq, Repr

/-- The allocator call `dag.cache_volume(name)`. -/
def cache_volume (name : String) : CacheVolume := ⟨name⟩

/-- A container as the trace of external Container-API calls that built
it.  `empty` is `dag.container()`; each constructor records one call of
the capability set listed in the spec. -/
inductive Container where
  | empty : Container
  | from_ (c : Container) (address : String) : Container
  | with_env_variable (c : Container) (name value : String) : Container
  | with_label (c : Container) (name value : String) : Container
  | with_entrypoint (c : Container) (args : List String) : Container
  | with_exec (c : Container) (args : List String) : Container
  | with_exposed_port (c : Container) (port : Nat) : Container
  | with_mounted_cache (c : Container) (path : String) (cache : CacheVolume) : Container
  | with_mounted_directory (c : Container) (path : String) (source : Directory) : Container
deriving DecidableEq, Repr

/-- A runnable service handle produced by `Container.as_service()`. -/
structure Service where
  container : Container
deriving DecidableEq, Repr

/-- The conversion `Container.as_service()`. -/
def Container.as_service (c : Container) : Service := ⟨c⟩

/-- Modelled from the spec: `withEntrypoint` replaces the container's
entrypoint, so the effective entrypoint is the argument of the last
`with_entrypoint` call in the trace (`none` if there is none). -/
def Container.effective_entrypoint : Container → Option (List String)
  | .empty => none
  | .from_ c _ => c.effective_entrypoint
  | .with_env_variable c _ _ => c.effective_entrypoint
  | .with_label c _ _ => c.effective_entrypoint
  | .with_entrypoint _ args => some args
  | .with_exec c _ => c.effective_entrypoint
  | .with_exposed_port c _ => c.effective_entrypoint
  | .with_mounted_cache c _ _ => c.effective_entrypoint
  | .with_mounted_directory c _ _ => c.effective_entrypoint

/-- Modelled from the spec: each `withExec` supersedes the previous one
for the command the service runs, so the effective command is the
argument of the last `with_exec` call in the trace. -/
def Container.effective_command : Container → Option (List String)
  | .empty => none
  | .from_ c _ => c.effective_command
  | .with_env_variable c _ _ => c.effective_command
  | .with_label c _ _ => c.effective_command
  | .with_entrypoint c _ => c.effective_command
  | .with_exec _ args => some args
  | .with_exposed_port c _ => c.effective_command
  | .with_mounted_cache c _ _ => c.effective_command
  | .with_mounted_directory c _ _ => c.effective_command

/-- One mount recorded on a container: a cache volume or a bind-mounted
directory, at a target path. -/
inductive Mount where
  | cache (path : String) (volume : CacheVolume) : Mount
  | dir (path : String) (source : Directory) : Mount
deriving DecidableEq, Repr

/-- The mounts recorded in a container trace, in call order. -/
def Container.mounts : Container → List Mount
  | .empty => []
  | .from_ c _ => c.mounts
  | .with_env_variable c _ _ => c.mounts
  | .with_label c _ _ => c.mounts
  | .with_entrypoint c _ => c.mounts
  | .with_exec c _ => c.mounts
  | .with_exposed_port c _ => c.mounts
  | .with_mounted_cache c path cv => c.mounts ++ [.cache path cv]
  | .with_mounted_directory c path d => c.mounts ++ [.dir path d]

/-- Errors an operation of this module can raise.  `keyError k` is
Python `KeyError(k)`; `typeError` is Python `TypeError` (raised e.g. by
`k in None`); `configError` stands for a failure of the external
render/parse pipeline. -/
inductive Err where
  | keyError (key : String) : Err
  | typeError : Err
  | configError : Err
deriving DecidableEq, Repr

/-- A Python dict with object identity: `oid` is the identity of the
dict object, `entries` its key/value pairs in insertion order. -/
structure PyDict (α : Type) where
  oid : Nat
  entries : List (String × α)
deriving DecidableEq, Repr

/-- Python `d[k] = v`: overwrite in place if `k` is present (its position
is kept), else append. -/
def dict_insert {α : Type} (d : List (String × α)) (k : String) (v : α) :
    List (String × α) :=
  match d with
  | [] => [(k, v)]
  | (k0, v0) :: rest =>
    if k0 = k then (k, v) :: rest else (k0, v0) :: dict_insert rest k v

/-- Python `d[k]` / `k in d`: lookup of the first (unique) binding. -/
def dict_lookup {α : Type} (d : List (String × α)) (k : String) : Option α :=
  match d with
  | [] => none
  | (k0, v0) :: rest => if k0 = k then some v0 else dict_lookup rest k

/-- Python truthiness of an optional dict-like field: `None` and the
empty dict are falsy. -/
def memo_falsy {α : Type} : Option (PyDict α) → Bool
  | none => true
  | some d => d.entries.isEmpty

/-- Pre-Build Container Artifact: pairs a service-name tag with a
ready-made container. -/
structure PreBuildContainer where
  tag : String
  container : Container
deriving DecidableEq, Repr

/-- One `{source, target}` entry of a service's `volumes` list. -/
structure VolumeMount where
  source : String
  target : String
deriving DecidableEq, Repr

/-- The fields of one service's spec consumed by the builder.  A `none`
field is an absent key (`"k" in specs` is false); `some` is a present
key.  The source reads these out of an untyped YAML mapping. -/
structure ServiceSpec where
  image : Option String := none
  environment : Option (List (String × String)) := none
  labels : Option (List (String × String)) := none
  entrypoint : Option (List String) := none
  command : Option (List String) := none
  ports : Option (List Nat) := none
  volumes : Option (List VolumeMount) := none
deriving DecidableEq, Repr

/-- The top-level rendered Compose document: the `volumes` section is a
mapping whose values are never consumed, so only its key list is kept;
`services` maps service names to their specs.  `none` is an absent key. -/
structure ComposeSpecs where
  volumes : Option (List String) := none
  services : Option (List (String × ServiceSpec)) := none
deriving DecidableEq, Repr

/-- Python truthiness of the optional specs document: `None` is falsy,
and so is a parsed document with no keys. -/
def specs_falsy : Option ComposeSpecs → Bool
  | none => true
  | some cs => cs.volumes.isNone && cs.services.isNone

/-- Project Service Artifact: the result of building one service. -/
structure ProjectService where
  name : String
  specs : ServiceSpec
  service : Service
deriving DecidableEq, Repr

instance exceptDecEq {ε α : Type} [DecidableEq ε] [DecidableEq α] :
    DecidableEq (Except ε α) := fun x y =>
  match x, y with
  | .ok a, .ok b =>
    if h : a = b then isTrue (by rw [h])
    else isFalse (by intro hc; cases hc; exact h rfl)
  | .error e, .error f =>
    if h : e = f then isTrue (by rw [h])
    else isFalse (by intro hc; cases hc; exact h rfl)
  | .ok _, .error _ => isFalse (by intro hc; cases hc)
  | .error _, .ok _ => isFalse (by intro hc; cases hc)

/-- Project Artifact: the orchestration state.  `render_result` is
modelled from the spec: it is the outcome the external config renderer
and parser would produce for this project's compose/env files (the
source obtains it by running `docker-compose config` in a container and
parsing the output).  `nextOid` is the fresh-id counter for dict
identities. -/
structure Project where
  name : String
  base_dir : Directory
  compose_file : Option File := none
  env_file : Option File := none
  pre_build_containers : List PreBuildContainer := []
  specs : Option ComposeSpecs := none
  volumes : Option (PyDict CacheVolume) := none
  services : Option (PyDict ProjectService) := none
  render_result : Except Err ComposeSpecs := .error .configError
  nextOid : Nat := 0
deriving DecidableEq, Repr

/-- Translation of `__post_init__`: default the compose file to
`base_dir/docker-compose.yml` when none was given. -/
def Project.post_init (p : Project) : Project :=
  if p.compose_file.isNone then
    { p with compose_file := some (p.base_dir.file "docker-compose.yml") }
  else p

/-- Translation of `add_pre_build_container(tag, container)`: append an override. -/
def Project.add_pre_build_container (p : Project) (tag : String)
    (container : Container) : Project :=
  { p with pre_build_containers :=
      p.pre_build_containers ++ [⟨tag, container⟩] }

/-- Translation of `get_specs`: memoized load of the rendered compose document.  The
render/parse pipeline is external; its outcome is the project's
`render_result`. -/
def Project.get_specs (p : Project) : Project × Except Err ComposeSpecs :=
  if specs_falsy p.specs then
    match p.render_result with
    | .error e => (p, .error e)
    | .ok cs => ({ p with specs := some cs }, .ok cs)
  else
    (p, .ok (p.specs.getD {}))

/-- The body of `get_volumes` past the memo check, taken in the state
where `self.volumes` was just assigned the fresh empty dict with
identity `oid`: read `self.specs["volumes"]` (raising on a missing key
or on `None` specs), then fill that same dict (same `oid`) with one
cache volume per declared name. -/
def Project.get_volumes_compute (p : Project) (oid : Nat) :
    Project × Except Err (PyDict CacheVolume) :=
  match p.specs with
  | none => (p, .error .typeError)
  | some cs =>
    match cs.volumes with
    | none => (p, .error (.keyError "volumes"))
    | some decls =>
      ({ p with volumes := some ⟨oid,
          decls.foldl (fun acc volume_name => dict_insert acc volume_name (cache_volume volume_name)) []⟩ },
        .ok ⟨oid,
          decls.foldl (fun acc volume_name => dict_insert acc volume_name (cache_volume volume_name)) []⟩)

/-- Translation of `get_volumes`: memoized resolution of the declared volumes.  The
source first assigns `self.volumes = {}` (a fresh dict), then runs the
compute body in that state. -/
def Project.get_volumes (p : Project) : Project × Except Err (PyDict CacheVolume) :=
  if memo_falsy p.volumes then
    Project.get_volumes_compute
      { p with volumes := some ⟨p.nextOid, []⟩, nextOid := p.nextOid + 1 } p.nextOid
  else
    (p, .ok (p.volumes.getD ⟨0, []⟩))

/-- The base-selection loop of `__get_service`: iterate over all
registered pre-build containers and take the container of each entry
whose tag equals the service name (no break, so a later match
overwrites an earlier one). -/
def select_pre_build (pbcs : List PreBuildContainer) (service_name : String) :
    Option Container :=
  pbcs.foldl
    (fun acc pbc => if pbc.tag = service_name then some pbc.container else acc)
    none

/-- Base selection of `__get_service`: the pre-build loop result if any
entry matched, else a container from `specs["image"]` (raising
`KeyError("image")` when the key is absent). -/
def Project.base_container (p : Project) (service_name : String)
    (specs : ServiceSpec) : Except Err Container :=
  match select_pre_build p.pre_build_containers service_name with
  | some c => .ok c
  | none =>
    match specs.image with
    | some img => .ok (Container.empty.from_ img)
    | none => .error (.keyError "image")

/-- The `environment` loop: one `with_env_variable` call per pair. -/
def apply_environment (c : Container) (specs : ServiceSpec) : Container :=
  match specs.environment with
  | none => c
  | some envs => envs.foldl (fun c kv => c.with_env_variable kv.1 kv.2) c

/-- The `labels` loop: one `with_label` call per pair. -/
def apply_labels (c : Container) (specs : ServiceSpec) : Container :=
  match specs.labels with
  | none => c
  | some ls => ls.foldl (fun c kv => c.with_label kv.1 kv.2) c

/-- The `entrypoint` loop: one single-element `with_entrypoint` call per
token. -/
def apply_entrypoint (c : Container) (specs : ServiceSpec) : Container :=
  match specs.entrypoint with
  | none => c
  | some eps => eps.foldl (fun c entrypoint => c.with_entrypoint [entrypoint]) c

/-- The `command` loop: one single-element `with_exec` call per token. -/
def apply_command (c : Container) (specs : ServiceSpec) : Container :=
  match specs.command with
  | none => c
  | some cmds => cmds.foldl (fun c cmd => c.with_exec [cmd]) c

/-- The `ports` loop: one `with_exposed_port` call per port. -/
def apply_ports (c : Container) (specs : ServiceSpec) : Container :=
  match specs.ports with
  | none => c
  | some ps => ps.foldl (fun c port => c.with_exposed_port port) c

/-- One iteration of the `volumes` loop: `source in self.volumes` raises
`TypeError` when the volumes memo is `None`; a matching source mounts
the cache volume at `target`, a non-matching one mounts the directory
`base_dir/source` at `target`. -/
def Project.mount_volume (p : Project) (c : Container) (v : VolumeMount) :
    Except Err Container :=
  match p.volumes with
  | none => .error .typeError
  | some vt =>
    match dict_lookup vt.entries v.source with
    | some cv => .ok (c.with_mounted_cache v.target cv)
    | none => .ok (c.with_mounted_directory v.target (p.base_dir.directory v.source))

/-- The `volumes` loop of `__get_service`. -/
def Project.mount_volumes (p : Project) (c : Container) :
    List VolumeMount → Except Err Container
  | [] => .ok c
  | v :: rest =>
    match p.mount_volume c v with
    | .error e => .error e
    | .ok c2 => p.mount_volumes c2 rest

/-- Translation of `__get_service(service_name, specs)`: build one service, applying
base selection, environment, labels, entrypoint, command, ports and
volume mounts in order, then converting the container to a service. -/
def Project.build_service (p : Project) (service_name : String)
    (specs : ServiceSpec) : Except Err ProjectService :=
  match p.base_container service_name specs with
  | .error e => .error e
  | .ok base =>
    let c := apply_ports
      (apply_command (apply_entrypoint (apply_labels (apply_environment base specs) specs) specs) specs)
      specs
    match specs.volumes with
    | none => .ok ⟨service_name, specs, c.as_service⟩
    | some vols =>
      match p.mount_volumes c vols with
      | .error e => .error e
      | .ok c2 => .ok ⟨service_name, specs, c2.as_service⟩

/-- The service loop of `get_services`: build each service in document
order; a successful build is written into the services dict (its `oid`
is kept) before the next service is attempted, and a failure propagates
leaving the writes made so far in place. -/
def Project.services_loop (p : Project) :
    List (String × ServiceSpec) → Project × Except Err Unit
  | [] => (p, .ok ())
  | (service_name, specs) :: rest =>
    match p.build_service service_name specs with
    | .error e => (p, .error e)
    | .ok svc =>
      let d := p.services.getD ⟨0, []⟩
      let p := { p with services := some ⟨d.oid, dict_insert d.entries service_name svc⟩ }
      p.services_loop rest

/-- The body of `get_services` past the memo check, taken in the state
where `self.services` was just assigned the fresh empty dict: read
`self.specs["services"]`, then run the service loop. -/
def Project.get_services_compute (p : Project) :
    Project × Except Err (PyDict ProjectService) :=
  match p.specs with
  | none => (p, .error .typeError)
  | some cs =>
    match cs.services with
    | none => (p, .error (.keyError "services"))
    | some svcSpecs =>
      match p.services_loop svcSpecs with
      | (p2, .error e) => (p2, .error e)
      | (p2, .ok _) => (p2, .ok (p2.services.getD ⟨0, []⟩))

/-- Translation of `get_services`: memoized build of all services.  The source first
assigns `self.services = {}` (a fresh dict), then runs the compute body
in that state. -/
def Project.get_services (p : Project) : Project × Except Err (PyDict ProjectService) :=
  if memo_falsy p.services then
    Project.get_services_compute
      { p with services := some ⟨p.nextOid, []⟩, nextOid := p.nextOid + 1 }
  else
    (p, .ok (p.services.getD ⟨0, []⟩))

/-- Translation of `up`: load specs, resolve volumes, build services; any failure
propagates.  The loop that would start each built service is commented
out in the source, so `up` returns nothing further. -/
def Project.up (p : Project) : Project × Except Err Unit :=
  match p.get_specs with
  | (p1, .error e) => (p1, .error e)
  | (p1, .ok _) =>
    match p1.get_volumes with
    | (p2, .error e) => (p2, .error e)
    | (p2, .ok _) =>
      match p2.get_services with
      | (p3, .error e) => (p3, .error e)
      | (p3, .ok _) => (p3, .ok ())

/-- Translation of `get_service(name)`: here `name in self.services` raises `TypeError`
when the services memo is `None`; otherwise it is a pure dict lookup
returning `None` (absent) for a missing name. -/
def Project.get_service (p : Project) (name : String) :
    Except Err (Option ProjectService) :=
  match p.services with
  | none => .error .typeError
  | some d => .ok (dict_lookup d.entries name)

/-! ## Helper lemmas -/

/-- The per-entry decision of the volumes loop: a source that is a key
of the volume table gets a cache mount at the target, any other source
gets a bind mount of `base_dir/source` at the target. -/
def mount_decision (vt : PyDict CacheVolume) (bd : Directory) (v : VolumeMount) : Mount :=
  match dict_lookup vt.entries v.source with
  | some cv => .cache v.target cv
  | none => .dir v.target (bd.directory v.source)

theorem foldl_with_entrypoint_last (l : List String) :
    ∀ c : Container, l ≠ [] →
      (l.foldl (fun c e => c.with_entrypoint [e]) c).effective_entrypoint =
        l.getLast?.map (fun t => [t]) := by
  induction l with
  | nil => intro c h; cases h rfl
  | cons a t ih =>
    intro c _
    cases t with
    | nil => simp [Container.effective_entrypoint]
    | cons b t2 =>
      rw [List.foldl_cons, ih _ (by simp), List.getLast?_cons_cons]

theorem foldl_with_exec_last (l : List String) :
    ∀ c : Container, l ≠ [] →
      (l.foldl (fun c cmd => c.with_exec [cmd]) c).effective_command =
        l.getLast?.map (fun t => [t]) := by
  induction l with
  | nil => intro c h; cases h rfl
  | cons a t ih =>
    intro c _
    cases t with
    | nil => simp [Container.effective_command]
    | cons b t2 =>
      rw [List.foldl_cons, ih _ (by simp), List.getLast?_cons_cons]

theorem foldl_with_exec_entrypoint (l : List String) :
    ∀ c : Container,
      (l.foldl (fun c cmd => c.with_exec [cmd]) c).effective_entrypoint =
        c.effective_entrypoint := by
  induction l with
  | nil => intro c; rfl
  | cons a t ih => intro c; rw [List.foldl_cons, ih]; rfl

theorem foldl_with_exposed_port_entrypoint (l : List Nat) :
    ∀ c : Container,
      (l.foldl (fun c port => c.with_exposed_port port) c).effective_entrypoint =
        c.effective_entrypoint := by
  induction l with
  | nil => intro c; rfl
  | cons a t ih => intro c; rw [List.foldl_cons, ih]; rfl

theorem foldl_with_exposed_port_command (l : List Nat) :
    ∀ c : Container,
      (l.foldl (fun c port => c.with_exposed_port port) c).effective_command =
        c.effective_command := by
  induction l with
  | nil => intro c; rfl
  | cons a t ih => intro c; rw [List.foldl_cons, ih]; rfl

theorem apply_command_entrypoint (c : Container) (s : ServiceSpec) :
    (apply_command c s).effective_entrypoint = c.effective_entrypoint := by
  unfold apply_command
  cases s.command with
  | none => rfl
  | some l => exact foldl_with_exec_entrypoint l c

theorem apply_ports_entrypoint (c : Container) (s : ServiceSpec) :
    (apply_ports c s).effective_entrypoint = c.effective_entrypoint := by
  unfold apply_ports
  cases s.ports with
  | none => rfl
  | some l => exact foldl_with_exposed_port_entrypoint l c

theorem apply_ports_command (c : Container) (s : ServiceSpec) :
    (apply_ports c s).effective_command = c.effective_command := by
  unfold apply_ports
  cases s.ports with
  | none => rfl
  | some l => exact foldl_with_exposed_port_command l c

theorem mount_volume_ok_shape (p : Project) (c : Container) (v : VolumeMount)
    (c2 : Container) (h : p.mount_volume c v = .ok c2) :
    c2.effective_entrypoint = c.effective_entrypoint ∧
    c2.effective_command = c.effective_command := by
  unfold Project.mount_volume at h
  cases hv : p.volumes with
  | none => simp only [hv] at h; cases h
  | some vt =>
    simp only [hv] at h
    cases hl : dict_lookup vt.entries v.source with
    | some cv =>
      simp only [hl, Except.ok.injEq] at h
      subst h; exact ⟨rfl, rfl⟩
    | none =>
      simp only [hl, Except.ok.injEq] at h
      subst h; exact ⟨rfl, rfl⟩

theorem mount_volumes_preserves (p : Project) (vols : List VolumeMount) :
    ∀ c c2 : Container, p.mount_volumes c vols = .ok c2 →
      c2.effective_entrypoint = c.effective_entrypoint ∧
      c2.effective_command = c.effective_command := by
  induction vols with
  | nil => intro c c2 h; cases h; exact ⟨rfl, rfl⟩
  | cons v rest ih =>
    intro c c2 h
    unfold Project.mount_volumes at h
    cases hm : p.mount_volume c v with
    | error e => rw [hm] at h; cases h
    | ok c1 =>
      rw [hm] at h
      obtain ⟨h1, h2⟩ := ih c1 c2 h
      obtain ⟨h3, h4⟩ := mount_volume_ok_shape p c v c1 hm
      exact ⟨h1.trans h3, h2.trans h4⟩

theorem foldl_with_env_mounts (l : List (String × String)) :
    ∀ c : Container,
      (l.foldl (fun c kv => c.with_env_variable kv.1 kv.2) c).mounts = c.mounts := by
  induction l with
  | nil => intro c; rfl
  | cons a t ih => intro c; rw [List.foldl_cons, ih]; rfl

theorem foldl_with_label_mounts (l : List (String × String)) :
    ∀ c : Container,
      (l.foldl (fun c kv => c.with_label kv.1 kv.2) c).mounts = c.mounts := by
  induction l with
  | nil => intro c; rfl
  | cons a t ih => intro c; rw [List.foldl_cons, ih]; rfl

theorem foldl_with_entrypoint_mounts (l : List String) :
    ∀ c : Container,
      (l.foldl (fun c e => c.with_entrypoint [e]) c).mounts = c.mounts := by
  induction l with
  | nil => intro c; rfl
  | cons a t ih => intro c; rw [List.foldl_cons, ih]; rfl

theorem foldl_with_exec_mounts (l : List String) :
    ∀ c : Container,
      (l.foldl (fun c cmd => c.with_exec [cmd]) c).mounts = c.mounts := by
  induction l with
  | nil => intro c; rfl
  | cons a t ih => intro c; rw [List.foldl_cons, ih]; rfl

theorem foldl_with_exposed_port_mounts (l : List Nat) :
    ∀ c : Container,
      (l.foldl (fun c port => c.with_exposed_port port) c).mounts = c.mounts := by
  induction l with
  | nil => intro c; rfl
  | cons a t ih => intro c; rw [List.foldl_cons, ih]; rfl

theorem apply_stages_mounts (base : Container) (s : ServiceSpec) :
    (apply_ports (apply_command (apply_entrypoint (apply_labels (apply_environment base s) s) s) s) s).mounts
      = base.mounts := by
  unfold apply_ports apply_command apply_entrypoint apply_labels apply_environment
  cases s.ports <;> cases s.command <;> cases s.entrypoint <;> cases s.labels <;>
    cases s.environment <;>
    simp only [foldl_with_exposed_port_mounts, foldl_with_exec_mounts,
      foldl_with_entrypoint_mounts, foldl_with_label_mounts, foldl_with_env_mounts]

theorem mount_volumes_mounts (p : Project) (vt : PyDict CacheVolume)
    (hvt : p.volumes = some vt) (vols : List VolumeMount) :
    ∀ c : Container, ∃ c2, p.mount_volumes c vols = .ok c2 ∧
      c2.mounts = c.mounts ++ vols.map (mount_decision vt p.base_dir) := by
  induction vols with
  | nil => intro c; exact ⟨c, rfl, by simp [Project.mount_volumes]⟩
  | cons v rest ih =>
    intro c
    cases hl : dict_lookup vt.entries v.source with
    | some cv =>
      obtain ⟨c2, h1, h2⟩ := ih (c.with_mounted_cache v.target cv)
      refine ⟨c2, ?_, ?_⟩
      · unfold Project.mount_volumes Project.mount_volume
        simp only [hvt, hl, h1]
      · rw [h2]
        simp [Container.mounts, mount_decision, hl, List.append_assoc]
    | none =>
      obtain ⟨c2, h1, h2⟩ := ih (c.with_mounted_directory v.target (p.base_dir.directory v.source))
      refine ⟨c2, ?_, ?_⟩
      · unfold Project.mount_volumes Project.mount_volume
        simp only [hvt, hl, h1]
      · rw [h2]
        simp [Container.mounts, mount_decision, hl, List.append_assoc]

theorem build_service_ok_decomp (p : Project) (service_name : String)
    (spec : ServiceSpec) (svc : ProjectService)
    (hok : p.build_service service_name spec = .ok svc) :
    ∃ base c2, p.base_container service_name spec = .ok base ∧
      p.mount_volumes
        (apply_ports (apply_command (apply_entrypoint (apply_labels (apply_environment base spec) spec) spec) spec) spec)
        (spec.volumes.getD []) = .ok c2 ∧
      svc = ⟨service_name, spec, c2.as_service⟩ := by
  unfold Project.build_service at hok
  cases hb : p.base_container service_name spec with
  | error e => rw [hb] at hok; cases hok
  | ok base =>
    rw [hb] at hok
    cases hv : spec.volumes with
    | none =>
      rw [hv] at hok
      simp only at hok
      cases hok
      exact ⟨base, _, rfl, by simp [hv, Project.mount_volumes], rfl⟩
    | some vols =>
      rw [hv] at hok
      simp only at hok
      cases hm : p.mount_volumes
          (apply_ports (apply_command (apply_entrypoint (apply_labels (apply_environment base spec) spec) spec) spec) spec)
          vols with
      | error e => rw [hm] at hok; cases hok
      | ok c2 =>
        rw [hm] at hok
        cases hok
        exact ⟨base, c2, rfl, by simp [hv, hm], rfl⟩

theorem select_pre_build_no_match (service_name : String) :
    ∀ (l : List PreBuildContainer) (acc : Option Container),
      (∀ x ∈ l, x.tag ≠ service_name) →
      l.foldl (fun acc pbc => if pbc.tag = service_name then some pbc.container else acc) acc
        = acc := by
  intro l
  induction l with
  | nil => intro acc _; rfl
  | cons a t ih =>
    intro acc h
    rw [List.foldl_cons]
    rw [if_neg (h a (by simp))]
    exact ih acc fun x hx => h x (by simp [hx])

theorem select_pre_build_last (l1 l2 : List PreBuildContainer)
    (pbc : PreBuildContainer) (service_name : String)
    (htag : pbc.tag = service_name)
    (hafter : ∀ c ∈ l2, c.tag ≠ service_name) :
    select_pre_build (l1 ++ pbc :: l2) service_name = some pbc.container := by
  unfold select_pre_build
  rw [List.foldl_append, List.foldl_cons, if_pos htag]
  exact select_pre_build_no_match service_name l2 _ hafter

theorem mount_volume_congr (p q : Project) (hvol : p.volumes = q.volumes)
    (hbd : p.base_dir = q.base_dir) (c : Container) (v : VolumeMount) :
    p.mount_volume c v = q.mount_volume c v := by
  unfold Project.mount_volume
  rw [hvol, hbd]

theorem mount_volumes_congr (p q : Project) (hvol : p.volumes = q.volumes)
    (hbd : p.base_dir = q.base_dir) :
    Project.mount_volumes p = Project.mount_volumes q := by
  funext c vols
  induction vols generalizing c with
  | nil => rfl
  | cons v rest ih =>
    unfold Project.mount_volumes
    rw [mount_volume_congr p q hvol hbd c v]
    cases hq : q.mount_volume c v with
    | error e => rfl
    | ok c2 => exact ih c2

theorem build_service_congr (p q : Project)
    (hpb : p.pre_build_containers = q.pre_build_containers)
    (hvol : p.volumes = q.volumes) (hbd : p.base_dir = q.base_dir)
    (service_name : String) (spec : ServiceSpec) :
    p.build_service service_name spec = q.build_service service_name spec := by
  unfold Project.build_service Project.base_container
  rw [hpb, mount_volumes_congr p q hvol hbd]

theorem dict_insert_not_mem {α : Type} (d : List (String × α)) (k : String) (v : α)
    (h : ∀ kv ∈ d, kv.1 ≠ k) : dict_insert d k v = d ++ [(k, v)] := by
  induction d with
  | nil => rfl
  | cons a t ih =>
    unfold dict_insert
    rw [if_neg (h a (by simp))]
    rw [ih fun kv hkv => h kv (by simp [hkv])]
    rfl

theorem foldl_dict_insert_map (f : String → CacheVolume) :
    ∀ (names : List String) (acc : List (String × CacheVolume)),
      names.Nodup → (∀ n ∈ names, ∀ kv ∈ acc, kv.1 ≠ n) →
      names.foldl (fun a n => dict_insert a n (f n)) acc
        = acc ++ names.map (fun n => (n, f n)) := by
  intro names
  induction names with
  | nil => intro acc _ _; simp
  | cons a t ih =>
    intro acc hnd hfresh
    rw [List.foldl_cons]
    rw [dict_insert_not_mem acc a (f a) (fun kv hkv => hfresh a (by simp) kv hkv)]
    rw [ih (acc ++ [(a, f a)]) (List.Nodup.of_cons hnd) ?_]
    · simp
    · intro n hn kv hkv
      rcases List.mem_append.mp hkv with h1 | h1
      · exact hfresh n (by simp [hn]) kv h1
      · have hkv2 : kv = (a, f a) := by simpa using h1
        subst hkv2
        intro hc
        simp only at hc
        rw [← hc] at hn
        exact (List.nodup_cons.mp hnd).1 hn

/-! ## Claim C1 -/

/-- C1: for every service spec containing a volumes list and for every
source/target entry in it, build_service mounts a cache volume at the
target when the source is a key of the resolved volume table, and
otherwise mounts the directory base_dir/source as a bind mount at the
target; the decision is exactly membership of the source in the table,
evaluated per entry (the built container's mounts are the base
container's mounts followed by one decided mount per entry, in order). -/
theorem C1_volume_mount_decision (p : Project) (service_name : String)
    (spec : ServiceSpec) (vt : PyDict CacheVolume) (vols : List VolumeMount)
    (svc : ProjectService)
    (hvt : p.volumes = some vt) (hv : spec.volumes = some vols)
    (hok : p.build_service service_name spec = .ok svc) :
    ∃ base, p.base_container service_name spec = .ok base ∧
      svc.service.container.mounts =
        base.mounts ++ vols.map (mount_decision vt p.base_dir) := by
  obtain ⟨base, c2, hb, hm, hsvc⟩ := build_service_ok_decomp p service_name spec svc hok
  refine ⟨base, hb, ?_⟩
  subst hsvc
  rw [hv] at hm
  simp only [Option.getD_some] at hm
  obtain ⟨c2', hm', hmounts⟩ := mount_volumes_mounts p vt hvt vols
    (apply_ports (apply_command (apply_entrypoint (apply_labels (apply_environment base spec) spec) spec) spec) spec)
  have hc : c2 = c2' := by
    have := hm.symm.trans hm'
    exact (Except.ok.injEq _ _).mp this
  subst hc
  show c2.mounts = _
  rw [hmounts, apply_stages_mounts]

def pC1 : Project :=
  { name := "proj1", base_dir := ⟨"/app"⟩,
    volumes := some ⟨0, [("data", ⟨"data"⟩)]⟩ }

def scC1 : ServiceSpec :=
  { image := some "nginx",
    volumes := some [⟨"data", "/var/data"⟩, ⟨"sub", "/mnt/sub"⟩] }

def svcC1 : ProjectService :=
  ⟨"web", scC1,
    (((Container.empty.from_ "nginx").with_mounted_cache "/var/data" ⟨"data"⟩).with_mounted_directory
        "/mnt/sub" ⟨"/app/sub"⟩).as_service⟩

/-- Witness for C1: a concrete project with one declared volume and a
service mounting a matching and a non-matching source. -/
theorem C1_volume_mount_decision_witness :
    ∃ base, Project.base_container pC1 "web" scC1 = .ok base ∧
      svcC1.service.container.mounts =
        base.mounts ++ [VolumeMount.mk "data" "/var/data", VolumeMount.mk "sub" "/mnt/sub"].map
          (mount_decision ⟨0, [("data", ⟨"data"⟩)]⟩ pC1.base_dir) :=
  C1_volume_mount_decision pC1 "web" scC1 ⟨0, [("data", ⟨"data"⟩)]⟩
    [VolumeMount.mk "data" "/var/data", VolumeMount.mk "sub" "/mnt/sub"] svcC1
    rfl rfl (by decide)

/-! ## Claim C2 -/

def pC2 : Project :=
  { name := "proj2", base_dir := ⟨"/app"⟩,
    pre_build_containers :=
      [⟨"web", Container.empty.from_ "img1"⟩, ⟨"web", Container.empty.from_ "img2"⟩] }

/-- C2 counterexample: with two registered pre-build containers both
tagged web, build_service uses the container of the second entry, not
of the first, so first-match-wins is false. -/
theorem C2_counterexample :
    Project.build_service pC2 "web" {} =
      .ok ⟨"web", {}, (Container.empty.from_ "img2").as_service⟩ ∧
    Container.empty.from_ "img2" ≠ Container.empty.from_ "img1" :=
  ⟨rfl, by decide⟩

/-- C2 (amended): when duplicate tags match a service name, the base
container selected by build_service is the container of the last
matching entry in registration order, because the selection loop has no
break and later matches overwrite earlier ones. -/
theorem C2_amended_last_match (p : Project) (service_name : String)
    (spec : ServiceSpec) (l1 l2 : List PreBuildContainer) (pbc : PreBuildContainer)
    (hsplit : p.pre_build_containers = l1 ++ pbc :: l2)
    (htag : pbc.tag = service_name)
    (hafter : ∀ c ∈ l2, c.tag ≠ service_name) :
    p.base_container service_name spec = .ok pbc.container := by
  unfold Project.base_container
  simp only [hsplit, select_pre_build_last l1 l2 pbc service_name htag hafter]

/-- Witness for the amended C2 at the concrete duplicate-tag project. -/
theorem C2_amended_last_match_witness :
    Project.base_container pC2 "web" {} = .ok (Container.empty.from_ "img2") :=
  C2_amended_last_match pC2 "web" {} [⟨"web", Container.empty.from_ "img1"⟩] []
    ⟨"web", Container.empty.from_ "img2"⟩ rfl rfl (by decide)

/-! ## Claim C3 -/

/-- C3: for every service spec whose entrypoint field is a non-empty
token list, the built container's effective entrypoint is the single
last token as a one-element entrypoint, because each loop iteration
replaces the previous entrypoint. -/
theorem C3_entrypoint_last_wins (p : Project) (service_name : String)
    (spec : ServiceSpec) (l : List String) (svc : ProjectService)
    (hep : spec.entrypoint = some l) (hne : l ≠ [])
    (hok : p.build_service service_name spec = .ok svc) :
    svc.service.container.effective_entrypoint = l.getLast?.map (fun t => [t]) := by
  obtain ⟨base, c2, hb, hm, hsvc⟩ := build_service_ok_decomp p service_name spec svc hok
  subst hsvc
  show c2.effective_entrypoint = _
  obtain ⟨h1, _⟩ := mount_volumes_preserves p (spec.volumes.getD []) _ c2 hm
  rw [h1, apply_ports_entrypoint, apply_command_entrypoint]
  unfold apply_entrypoint
  simp only [hep]
  exact foldl_with_entrypoint_last l _ hne

def pC3 : Project := { name := "proj3", base_dir := ⟨"/app"⟩ }

def scC3 : ServiceSpec := { image := some "nginx", entrypoint := some ["a", "b", "c"] }

def svcC3 : ProjectService :=
  ⟨"web", scC3,
    ((((Container.empty.from_ "nginx").with_entrypoint ["a"]).with_entrypoint ["b"]).with_entrypoint
        ["c"]).as_service⟩

/-- Witness for C3: with entrypoint tokens a, b, c the effective
entrypoint of the built container is the singleton of the last token. -/
theorem C3_entrypoint_last_wins_witness :
    svcC3.service.container.effective_entrypoint =
      (["a", "b", "c"].getLast?.map (fun t => [t])) :=
  C3_entrypoint_last_wins pC3 "web" scC3 ["a", "b", "c"] svcC3 rfl (by decide) rfl

/-! ## Claim C7 -/

/-- The error the spec names MissingImageError: the KeyError on the
absent image key, raised when neither a pre-build override nor an image
field is available. -/
def MissingImageError : Err := .keyError "image"

/-- C7: for every service spec lacking an image field, when no
registered pre-build container tag equals the service name,
build_service fails with MissingImageError and no other error. -/
theorem C7_missing_image (p : Project) (service_name : String) (spec : ServiceSpec)
    (himg : spec.image = none)
    (hpb : ∀ c ∈ p.pre_build_containers, c.tag ≠ service_name) :
    p.build_service service_name spec = .error MissingImageError := by
  have hsel : select_pre_build p.pre_build_containers service_name = none :=
    select_pre_build_no_match service_name p.pre_build_containers none hpb
  unfold Project.build_service Project.base_container select_pre_build at *
  simp only [hsel, himg]
  rfl

def pC7 : Project :=
  { name := "proj7", base_dir := ⟨"/app"⟩,
    pre_build_containers := [⟨"other", Container.empty.from_ "busybox"⟩] }

/-- Witness for C7: a project with one non-matching pre-build container
and a spec without image fails with MissingImageError. -/
theorem C7_missing_image_witness :
    Project.build_service pC7 "web" {} = .error MissingImageError :=
  C7_missing_image pC7 "web" {} rfl (by decide)

/-! ## Claim C9 -/

/-- C9: for every service spec whose command field is a non-empty token
list, the command loop has the same override-per-iteration behavior as
the entrypoint loop: the built container's effective command is the
single last token. -/
theorem C9_command_last_wins (p : Project) (service_name : String)
    (spec : ServiceSpec) (l : List String) (svc : ProjectService)
    (hcmd : spec.command = some l) (hne : l ≠ [])
    (hok : p.build_service service_name spec = .ok svc) :
    svc.service.container.effective_command = l.getLast?.map (fun t => [t]) := by
  obtain ⟨base, c2, hb, hm, hsvc⟩ := build_service_ok_decomp p service_name spec svc hok
  subst hsvc
  show c2.effective_command = _
  obtain ⟨_, h2⟩ := mount_volumes_preserves p (spec.volumes.getD []) _ c2 hm
  rw [h2, apply_ports_command]
  unfold apply_command
  simp only [hcmd]
  exact foldl_with_exec_last l _ hne

def pC9 : Project := { name := "proj9", base_dir := ⟨"/app"⟩ }

def scC9 : ServiceSpec := { image := some "nginx", command := some ["x", "y"] }

def svcC9 : ProjectService :=
  ⟨"web", scC9,
    (((Container.empty.from_ "nginx").with_exec ["x"]).with_exec ["y"]).as_service⟩

/-- Witness for C9: with command tokens x, y the effective command of
the built container is the singleton of the last token. -/
theorem C9_command_last_wins_witness :
    svcC9.service.container.effective_command =
      (["x", "y"].getLast?.map (fun t => [t])) :=
  C9_command_last_wins pC9 "web" scC9 ["x", "y"] svcC9 rfl (by decide) rfl

/-! ## Claim C4 -/

def pC4 : Project :=
  { name := "proj4", base_dir := ⟨"/app"⟩,
    specs := some { services := some [("a", { image := some "nginx" }), ("b", {})] } }

def svcC4a : ProjectService :=
  ⟨"a", { image := some "nginx" }, (Container.empty.from_ "nginx").as_service⟩

/-- C4 counterexample: building service b fails with the missing-image
KeyError after service a was already built and stored, so the services
memo ends up partially populated (it holds only a), and a retried call
finds the non-empty memo truthy and returns the partial table unchanged
instead of re-attempting the stage. -/
theorem C4_counterexample :
    (Project.get_services pC4).2 = .error (.keyError "image") ∧
    (Project.get_services pC4).1.services = some ⟨0, [("a", svcC4a)]⟩ ∧
    Project.get_services (Project.get_services pC4).1 =
      ((Project.get_services pC4).1, .ok ⟨0, [("a", svcC4a)]⟩) :=
  ⟨rfl, rfl, rfl⟩

theorem get_services_compute_first_fail (q : Project) (cs : ComposeSpecs)
    (service_name : String) (spec : ServiceSpec) (rest : List (String × ServiceSpec))
    (e : Err) (hspecs : q.specs = some cs)
    (hsvcs : cs.services = some ((service_name, spec) :: rest))
    (hfail : q.build_service service_name spec = .error e) :
    q.get_services_compute = (q, .error e) := by
  unfold Project.get_services_compute
  simp only [hspecs, hsvcs]
  unfold Project.services_loop
  simp only [hfail]

/-- The first-service-failure reduction of get_services: under the memo
check, a failing first build propagates the error and leaves the memo as
the freshly assigned empty dict. -/
theorem get_services_first_fail (p : Project) (cs : ComposeSpecs)
    (service_name : String) (spec : ServiceSpec) (rest : List (String × ServiceSpec))
    (e : Err) (hspecs : p.specs = some cs)
    (hsvcs : cs.services = some ((service_name, spec) :: rest))
    (hfalsy : memo_falsy p.services = true)
    (hfail : p.build_service service_name spec = .error e) :
    p.get_services =
      ({ p with services := some ⟨p.nextOid, []⟩, nextOid := p.nextOid + 1 }, .error e) := by
  unfold Project.get_services
  rw [if_pos hfalsy]
  refine get_services_compute_first_fail _ cs service_name spec rest e hspecs hsvcs ?_
  exact (build_service_congr
    { p with services := some ⟨p.nextOid, []⟩, nextOid := p.nextOid + 1 } p
    rfl rfl rfl service_name spec).trans hfail

/-- C4 (amended): a failure while building the first service of the
document leaves the services memo as the freshly assigned empty dict, so
it is still falsy and a retried call re-attempts the stage from scratch
(allocating a new dict and failing the same way); but as the
counterexample shows, a failure after at least one service has been
built leaves a partially populated memo that a retry returns as-is, so
the stage is not failure-atomic in general. -/
theorem C4_amended_first_failure (p : Project) (cs : ComposeSpecs)
    (service_name : String) (spec : ServiceSpec) (rest : List (String × ServiceSpec))
    (e : Err) (hspecs : p.specs = some cs)
    (hsvcs : cs.services = some ((service_name, spec) :: rest))
    (hfalsy : memo_falsy p.services = true)
    (hfail : p.build_service service_name spec = .error e) :
    p.get_services =
      ({ p with services := some ⟨p.nextOid, []⟩, nextOid := p.nextOid + 1 }, .error e) ∧
    memo_falsy (p.get_services).1.services = true ∧
    (p.get_services).1.get_services =
      ({ p with services := some ⟨p.nextOid + 1, []⟩, nextOid := p.nextOid + 2 }, .error e) := by
  have h1 := get_services_first_fail p cs service_name spec rest e hspecs hsvcs hfalsy hfail
  refine ⟨h1, ?_, ?_⟩
  · rw [h1]
    rfl
  · rw [h1]
    exact get_services_first_fail
      { p with services := some ⟨p.nextOid, []⟩, nextOid := p.nextOid + 1 }
      cs service_name spec rest e hspecs hsvcs rfl
      ((build_service_congr
        { p with services := some ⟨p.nextOid, []⟩, nextOid := p.nextOid + 1 } p
        rfl rfl rfl service_name spec).trans hfail)

def pC4w : Project :=
  { name := "proj4w", base_dir := ⟨"/app"⟩,
    specs := some { services := some [("b", {})] } }

/-- Witness for the amended C4: a document whose only (hence first)
service lacks an image; the stage fails, the memo stays empty, and the
retry re-attempts with a fresh dict and the same error. -/
theorem C4_amended_first_failure_witness :
    Project.get_services pC4w =
      ({ pC4w with services := some ⟨0, []⟩, nextOid := 1 }, .error (.keyError "image")) ∧
    memo_falsy (Project.get_services pC4w).1.services = true ∧
    (Project.get_services pC4w).1.get_services =
      ({ pC4w with services := some ⟨1, []⟩, nextOid := 2 }, .error (.keyError "image")) :=
  C4_amended_first_failure pC4w { services := some [("b", {})] } "b" {} []
    (.keyError "image") rfl rfl rfl rfl

/-! ## Claim C5 -/

def pC5 : Project := { name := "proj5", base_dir := ⟨"/app"⟩ }

/-- C5 counterexample: on a project whose services memo has never been
populated, get_service raises TypeError (from testing membership in
None) instead of returning an absent result without failing. -/
theorem C5_counterexample :
    Project.get_service pC5 "web" = .error .typeError := rfl

/-- C5 (amended): before get_services has populated the table, the
services memo is None and get_service fails with TypeError for every
name; it still performs no build (it is a pure lookup).  After the
table is populated, it returns the stored service or an absent result. -/
theorem C5_amended_typeerror (p : Project) (name : String)
    (h : p.services = none) :
    p.get_service name = .error .typeError := by
  simp only [Project.get_service, h]

/-- Witness for the amended C5 at a fresh concrete project. -/
theorem C5_amended_typeerror_witness :
    Project.get_service pC5 "nginx" = .error .typeError :=
  C5_amended_typeerror pC5 "nginx" rfl

/-! ## Claim C6 -/

def pC6 : Project :=
  { name := "proj6", base_dir := ⟨"/app"⟩,
    specs := some { services := some [] } }

/-- C6 counterexample: with specs loaded but no top-level volumes key,
get_volumes raises KeyError on volumes; it does not succeed with an
empty table. -/
theorem C6_counterexample :
    (Project.get_volumes pC6).2 = .error (.keyError "volumes") := rfl

/-- C6 (amended): for a project whose loaded specs contain no top-level
volumes key, get_volumes fails with KeyError on volumes (leaving the
memo as the freshly assigned empty dict) instead of returning an empty
table. -/
theorem C6_amended_missing_key (p : Project) (cs : ComposeSpecs)
    (hspecs : p.specs = some cs) (hvols : cs.volumes = none)
    (hfalsy : memo_falsy p.volumes = true) :
    (p.get_volumes).2 = .error (.keyError "volumes") ∧
    (p.get_volumes).1.volumes = some ⟨p.nextOid, []⟩ := by
  unfold Project.get_volumes
  rw [if_pos hfalsy]
  unfold Project.get_volumes_compute
  simp only [hspecs, hvols]
  exact ⟨trivial, trivial⟩

/-- Witness for the amended C6 at a concrete volumeless document. -/
theorem C6_amended_missing_key_witness :
    (Project.get_volumes pC6).2 = .error (.keyError "volumes") ∧
    (Project.get_volumes pC6).1.volumes = some ⟨0, []⟩ :=
  C6_amended_missing_key pC6 { services := some [] } rfl rfl rfl

/-! ## Claim C8 -/

theorem get_volumes_compute_decls (q : Project) (oid : Nat) (cs : ComposeSpecs)
    (decls : List String) (hspecs : q.specs = some cs) (hdecls : cs.volumes = some decls)
    (hnodup : decls.Nodup) :
    q.get_volumes_compute oid =
      ({ q with volumes := some ⟨oid, decls.map (fun n => (n, cache_volume n))⟩ },
        .ok ⟨oid, decls.map (fun n => (n, cache_volume n))⟩) := by
  unfold Project.get_volumes_compute
  simp only [hspecs, hdecls]
  rw [foldl_dict_insert_map cache_volume decls [] hnodup (by intro n hn kv hkv; cases hkv)]
  simp

def pC8 : Project :=
  { name := "proj8", base_dir := ⟨"/app"⟩,
    specs := some { volumes := some [], services := some [] } }

/-- C8 counterexample: with zero declared volumes, the first call
returns the empty dict instance with identity 0 but a repeated call
finds the empty memo falsy, recomputes, and returns a fresh empty dict
instance with identity 1 — not the identical mapping instance. -/
theorem C8_counterexample :
    (Project.get_volumes pC8).2 = .ok ⟨0, []⟩ ∧
    (Project.get_volumes (Project.get_volumes pC8).1).2 = .ok ⟨1, []⟩ ∧
    (⟨1, []⟩ : PyDict CacheVolume) ≠ (⟨0, []⟩ : PyDict CacheVolume) :=
  ⟨rfl, rfl, by decide⟩

/-- C8 (amended): for a loaded document declaring N distinct volume
names, get_volumes returns a table with exactly N entries, one per
declared name in declaration order; and for N of at least one, repeated
calls are idempotent, returning the identical mapping instance with the
state unchanged.  For N equal to zero the empty memo stays falsy, so
each call recomputes and returns a fresh (value-equal but not
identical) empty mapping, as the counterexample shows. -/
theorem C8_amended_count_and_idempotence (p : Project) (cs : ComposeSpecs)
    (decls : List String)
    (hspecs : p.specs = some cs) (hdecls : cs.volumes = some decls)
    (hnodup : decls.Nodup) (hfalsy : memo_falsy p.volumes = true) :
    p.get_volumes =
      ({ p with
          volumes := some ⟨p.nextOid, decls.map (fun n => (n, cache_volume n))⟩,
          nextOid := p.nextOid + 1 },
        .ok ⟨p.nextOid, decls.map (fun n => (n, cache_volume n))⟩) ∧
    (decls ≠ [] →
      (p.get_volumes).1.get_volumes = ((p.get_volumes).1, (p.get_volumes).2)) := by
  have h1 : p.get_volumes =
      ({ p with
          volumes := some ⟨p.nextOid, decls.map (fun n => (n, cache_volume n))⟩,
          nextOid := p.nextOid + 1 },
        .ok ⟨p.nextOid, decls.map (fun n => (n, cache_volume n))⟩) := by
    unfold Project.get_volumes
    rw [if_pos hfalsy]
    exact get_volumes_compute_decls _ p.nextOid cs decls hspecs hdecls hnodup
  refine ⟨h1, fun hne => ?_⟩
  rw [h1]
  show Project.get_volumes
      { p with
        volumes := some ⟨p.nextOid, decls.map (fun n => (n, cache_volume n))⟩,
        nextOid := p.nextOid + 1 } =
    ({ p with
        volumes := some ⟨p.nextOid, decls.map (fun n => (n, cache_volume n))⟩,
        nextOid := p.nextOid + 1 },
      .ok ⟨p.nextOid, decls.map (fun n => (n, cache_volume n))⟩)
  have hmf : memo_falsy (some (⟨p.nextOid, decls.map (fun n => (n, cache_volume n))⟩ :
      PyDict CacheVolume)) = false := by
    show (decls.map (fun n => (n, cache_volume n))).isEmpty = false
    cases decls with
    | nil => exact absurd rfl hne
    | cons a t => rfl
  unfold Project.get_volumes
  rw [if_neg (fun hc => Bool.noConfusion (hmf.symm.trans hc))]
  rfl

def pC8w : Project :=
  { name := "proj8w", base_dir := ⟨"/app"⟩,
    specs := some { volumes := some ["data", "logs"], services := some [] } }

/-- Witness for the amended C8: two declared volumes give two entries,
and the repeated call returns the identical dict instance unchanged. -/
theorem C8_amended_count_and_idempotence_witness :
    Project.get_volumes pC8w =
      ({ pC8w with
          volumes := some ⟨0, [("data", ⟨"data"⟩), ("logs", ⟨"logs"⟩)]⟩,
          nextOid := 1 },
        .ok ⟨0, [("data", ⟨"data"⟩), ("logs", ⟨"logs"⟩)]⟩) ∧
    (["data", "logs"] ≠ [] →
      (Project.get_volumes pC8w).1.get_volumes =
        ((Project.get_volumes pC8w).1, (Project.get_volumes pC8w).2)) :=
  C8_amended_count_and_idempotence pC8w
    { volumes := some ["data", "logs"], services := some [] }
    ["data", "logs"] rfl rfl (by decide) rfl

/-! ## Claim C10 -/

/-- Sequential composition of two stateful stages: run the first, stop
on its failure, otherwise run the second on the resulting state. -/
def stage_then {α β : Type} (f : Project → Project × Except Err α)
    (g : Project → Project × Except Err β) (p : Project) :
    Project × Except Err β :=
  match f p with
  | (p1, .error e) => (p1, .error e)
  | (p1, .ok _) => g p1

/-- Run a stage and discard its value, keeping only state and failure. -/
def discard_result {α : Type} (f : Project → Project × Except Err α) (p : Project) :
    Project × Except Err Unit :=
  match f p with
  | (p1, .error e) => (p1, .error e)
  | (p1, .ok _) => (p1, .ok ())

/-- The claimed reading of up: exactly the sequential composition of
get_specs, get_volumes and get_services with no returned value. -/
def up_spec : Project → Project × Except Err Unit :=
  stage_then Project.get_specs
    (stage_then Project.get_volumes (discard_result Project.get_services))

/-- C10: up is exactly the sequential composition get_specs then
get_volumes then get_services, returning no value beyond unit; the model
contains no operation that starts or runs a built service handle, and up
introduces nothing beyond the three composed stages. -/
theorem C10_up_is_composition (p : Project) : p.up = up_spec p := by
  rcases hs : p.get_specs with ⟨p1, r1⟩
  cases r1 with
  | error e => simp [Project.up, up_spec, stage_then, discard_result, hs]
  | ok cs =>
    rcases hv : p1.get_volumes with ⟨p2, r2⟩
    cases r2 with
    | error e => simp [Project.up, up_spec, stage_then, discard_result, hs, hv]
    | ok vt =>
      rcases hsv : p2.get_services with ⟨p3, r3⟩
      cases r3 with
      | error e => simp [Project.up, up_spec, stage_then, discard_result, hs, hv, hsv]
      | ok st => simp [Project.up, up_spec, stage_then, discard_result, hs, hv, hsv]
